import Mathlib

/-!
Shallow embedding of the Auto Arcana Wars combat engine
(src/utils.py, src/items.py, src/characters.py, src/backend.py).

Numbers are modelled as rationals (Python floats hold only small exact
decimals here), stateful in-place mutation as explicit state passing,
and the numpy random stream as an abstract sequence of draws in [0,1)
together with a cursor.
-/

/-- The seven-field stat record of src/utils.py (class Stats), all fields
defaulting to 0. -/
structure Stats where
  current_hp : ℚ := 0
  total_hp : ℚ := 0
  armor : ℚ := 0
  magic_resistance : ℚ := 0
  physical_power : ℚ := 0
  magic_power : ℚ := 0
  special_trigger_chance : ℚ := 0
deriving DecidableEq

/-- Stats.add_stat_changes from src/utils.py lines 46-78: fieldwise sum with
current_hp clamped into [0, new total_hp], armor floored at 0 and
special_trigger_chance capped at 100; total_hp, magic_resistance,
physical_power and magic_power are not clamped. -/
def Stats.add_stat_changes (self changes : Stats) : Stats :=
  let updated_current_hp := min (self.current_hp + changes.current_hp) (self.total_hp + changes.total_hp)
  { current_hp := max updated_current_hp 0
    total_hp := self.total_hp + changes.total_hp
    armor := max (self.armor + changes.armor) 0
    magic_resistance := self.magic_resistance + changes.magic_resistance
    physical_power := self.physical_power + changes.physical_power
    magic_power := self.magic_power + changes.magic_power
    special_trigger_chance := min (self.special_trigger_chance + changes.special_trigger_chance) 100 }

/-- Modelled from the spec: the DamagePacket of section 3. The class Damage is
imported from utils by src/backend.py and src/characters.py but its definition
is not under src/. Two numeric components with default 0. -/
structure Damage where
  physical : ℚ := 0
  magic : ℚ := 0
deriving DecidableEq

/-- Modelled from the spec: the AttackOutcome of section 3. The class Attack is
imported from utils by src/characters.py but its definition is not under src/.
It carries the damage packet, a stat delta for the attacker itself (used by the
Warrior heal, src/characters.py line 100) and a narration string. -/
structure Attack where
  damage : Damage
  stat_updates_to_self : Stats := {}
  description : String
deriving DecidableEq

/-- The five item variants of src/items.py. -/
inductive ItemKind where
  | enchantedSword
  | shinyStaff
  | pole
  | magicCauldron
  | solidRock
deriving DecidableEq

/-- An item instance: src/utils.py class BaseItem plus the variant tag that in
Python is carried by the subclass. -/
structure Item where
  kind : ItemKind
  base_item_stats : Stats
  is_passive_active : Bool := true
deriving DecidableEq

def enchantedSwordName : String := "Enchanted Sword"

def shinyStaffName : String := "Shiny Staff"

def poleName : String := "Pole"

def magicCauldronName : String := "Magic Cauldron"

def solidRockName : String := "Solid Rock"

/-- The name property of each item subclass in src/items.py. -/
def Item.name (i : Item) : String :=
  match i.kind with
  | .enchantedSword => enchantedSwordName
  | .shinyStaff => shinyStaffName
  | .pole => poleName
  | .magicCauldron => magicCauldronName
  | .solidRock => solidRockName

/-- The is_unique_passive property of each item subclass in src/items.py:
true for EnchantedSword and MagicCauldron, false otherwise. -/
def Item.is_unique_passive (i : Item) : Bool :=
  match i.kind with
  | .enchantedSword => true
  | .shinyStaff => false
  | .pole => false
  | .magicCauldron => true
  | .solidRock => false

/-- calculate_effective_stats of each item subclass in src/items.py:
the item's contribution from the character's base stats.
EnchantedSword (lines 35-51) replaces the special_trigger_chance field of its
base item stats by 5 + 0.25 * base special_trigger_chance when its passive is
active; ShinyStaff adds 1 + 0.5 * base magic_power of magic power; Pole and
SolidRock contribute their base stats only; MagicCauldron adds
10 + 0.3 * base total_hp to both hp fields when active. -/
def Item.calculate_effective_stats (i : Item) (base_character_stats : Stats) : Stats :=
  match i.kind with
  | .enchantedSword =>
    if i.is_passive_active then
      { i.base_item_stats with
        special_trigger_chance := 5 + (1 / 4) * base_character_stats.special_trigger_chance }
    else i.base_item_stats
  | .shinyStaff =>
    if i.is_passive_active then
      i.base_item_stats.add_stat_changes
        { magic_power := 1 + (1 / 2) * base_character_stats.magic_power }
    else i.base_item_stats
  | .pole => i.base_item_stats
  | .magicCauldron =>
    if i.is_passive_active then
      i.base_item_stats.add_stat_changes
        { current_hp := 10 + (3 / 10) * base_character_stats.total_hp
          total_hp := 10 + (3 / 10) * base_character_stats.total_hp }
    else i.base_item_stats
  | .solidRock => i.base_item_stats

/-- The three character variants of src/characters.py. -/
inductive CharKind where
  | ninja
  | mage
  | warrior
deriving DecidableEq

/-- A character instance: src/utils.py class BaseCharacter plus the variant tag
that in Python is carried by the subclass. -/
structure Character where
  kind : CharKind
  base_stats : Stats
  added_item_stats : Stats := {}
  effective_stats : Stats
  items : List Item := []
deriving DecidableEq

/-- BaseCharacter.__init__ with the default arguments: effective stats start as
a copy of the base stats, no items. -/
def mk_character (kind : CharKind) (base_stats : Stats) : Character :=
  { kind := kind, base_stats := base_stats, effective_stats := base_stats }

def ninjaName : String := "Ninja"

def mageName : String := "Mage"

def warriorName : String := "Warrior"

/-- The name property of each character subclass in src/characters.py. -/
def Character.name (c : Character) : String :=
  match c.kind with
  | .ninja => ninjaName
  | .mage => mageName
  | .warrior => warriorName

def ninjaSpecialName : String :=
  "Special Attack: A precise poisoned dagger shot designed to incapacitate most opponents"

def mageSpecialName : String := "Special Attack: A lullaby to deep sleep"

def warriorSpecialName : String := "Special Attack: A call to the shield hero"

/-- The special_attack_name property of each character subclass in
src/characters.py. -/
def Character.special_attack_name (c : Character) : String :=
  match c.kind with
  | .ninja => ninjaSpecialName
  | .mage => mageSpecialName
  | .warrior => warriorSpecialName

/-- special_attack of each character subclass in src/characters.py, evaluated
on the effective stats. Ninja (lines 16-34): 40 + 0.5 * physical_power +
0.5 * magic_power physical damage. Mage: 1 + 1.25 * magic_power magic damage.
Warrior (lines 82-101): zero damage and a stat_updates_to_self delta whose
current_hp is 50 + 0.75 * physical_power + 3 * magic_power.
The surrounding whitespace of the Python f-string narrations is dropped. -/
def Character.special_attack (c : Character) : Attack :=
  match c.kind with
  | .ninja =>
    let new_damage := 40 + (1 / 2) * c.effective_stats.physical_power
      + (1 / 2) * c.effective_stats.magic_power
    { damage := { physical := new_damage }
      description := c.name ++ " performed " ++ c.special_attack_name
        ++ ", dealing " ++ toString new_damage ++ " Physical Damage." }
  | .mage =>
    let new_damage := 1 + (5 / 4) * c.effective_stats.magic_power
    { damage := { magic := new_damage }
      description := c.name ++ " performed " ++ c.special_attack_name
        ++ ", dealing " ++ toString new_damage ++ " Magic Damage." }
  | .warrior =>
    let healing_amount := 50 + (3 / 4) * c.effective_stats.physical_power
      + 3 * c.effective_stats.magic_power
    { damage := {}
      stat_updates_to_self := { current_hp := healing_amount }
      description := c.name ++ " performed " ++ c.special_attack_name
        ++ ", healing " ++ toString healing_amount ++ " HP." }

def basicAttackSuffix : String := " performed a basic attack."

/-- Modelled from the spec: basic_attack is read by play_turn
(src/backend.py line 147) but no definition exists under src/. Per section 4.3
of the spec each variant's basic attack is a constant low-damage physical hit
scaled by the attacker's effective physical power, with the exact constants
being roster data; it is always available and never a self-heal, so the
constant and scale are taken as parameters, the self delta is zero and the
narration is a fixed per-variant string. -/
def Character.basic_attack (c : Character) (base scale : ℚ) : Attack :=
  { damage := { physical := base + scale * c.effective_stats.physical_power }
    stat_updates_to_self := {}
    description := c.name ++ basicAttackSuffix }

/-- The numpy generator of src/utils.py class RngEngine, modelled as an
abstract stream of uniform draws in [0,1) plus a cursor recording how many
draws have been consumed. -/
structure RngEngine where
  rand : Nat → ℚ
  cursor : Nat := 0

/-- RngEngine.rng (src/utils.py lines 19-33): compare the next stream value
with probability / 100 and advance the cursor. -/
def RngEngine.rng (e : RngEngine) (probability : ℚ) : Bool × RngEngine :=
  (decide (e.rand e.cursor < probability / 100), { e with cursor := e.cursor + 1 })

/-- calculate_damage_taken from src/backend.py lines 9-28: each strictly
positive damage component is scaled by the matching resistance and the sum is
returned as a negative current_hp delta. -/
def calculate_damage_taken (damage : Damage) (character_stats : Stats) : Stats :=
  let damage_dealt :=
    (if damage.physical > 0 then damage.physical * (1 - character_stats.armor / 100) else 0)
    + (if damage.magic > 0 then damage.magic * (1 - character_stats.magic_resistance / 100) else 0)
  { current_hp := -damage_dealt }

/-- calculate_miss_chance from src/backend.py lines 31-46. -/
def calculate_miss_chance (damage : Damage) (character_stats : Stats) : ℚ :=
  if damage.physical > 0 then character_stats.armor / 10
  else if damage.magic > 0 then character_stats.magic_resistance / 10
  else 0

/-- The observable result of one turn: the returned description and the
post-turn state of both characters and of the rng stream. -/
structure TurnResult where
  description : String
  your_character : Character
  opponent_character : Character
  rng : RngEngine

/-- The attack selection of src/backend.py line 147: the basic attack when the
special draw failed, the special attack when it succeeded. Both character
properties always return an Attack object, so the selection is always some;
the Option records that the Python variable could in principle hold None,
which line 157 would turn into a fatal error. -/
def select_attack (base scale : ℚ) (is_attack_special : Bool)
    (attacker : Character) : Option Attack :=
  if !is_attack_special then some (attacker.basic_attack base scale)
  else some attacker.special_attack

/-- play_turn from src/backend.py lines 119-157. The attacker is chosen by
is_your_turn; one special-trigger draw is taken, the attack is selected, and
because the Python code guards the miss draw and the damage application with
the check that the attack object is not None (line 149) while the final
damage.description access (line 157) would crash on None, the selected attack
is carried as an Option and a None attack yields none (the fatal path). The
stat_updates_to_self of the attack is never read by the Python code and is
likewise never read here. -/
def play_turn (base scale : ℚ) (your_character opponent_character : Character)
    (is_your_turn : Bool) (rng_engine : RngEngine) : Option TurnResult :=
  let attacker := if is_your_turn then your_character else opponent_character
  let defender := if is_your_turn then opponent_character else your_character
  let special_chance := attacker.effective_stats.special_trigger_chance
  let draw1 := rng_engine.rng special_chance
  let is_attack_special := draw1.1
  match select_attack base scale is_attack_special attacker with
  | none => none
  | some damage =>
    let draw2 := draw1.2.rng (calculate_miss_chance damage.damage defender.effective_stats)
    let is_damage_missed := draw2.1
    let hit_stats :=
      defender.effective_stats.add_stat_changes
        (calculate_damage_taken damage.damage defender.effective_stats)
    let defender := if !is_damage_missed then
        { defender with effective_stats := hit_stats }
      else defender
    if is_your_turn then
      some { description := damage.description, your_character := attacker
             opponent_character := defender, rng := draw2.2 }
    else
      some { description := damage.description, your_character := defender
             opponent_character := attacker, rng := draw2.2 }

/-- your_attack from src/backend.py lines 49-81. One turn is played with the
player attacking; in Python play_turn mutates the opponent character in place
and the opponent team list holds that same object, which is modelled by
writing the updated character back into the list at the current index. The
returned tuple carries the grown event log, the updated opponent team, the
advanced rng, and either the next opponent character with its index or none
when the defeated character was the last one. A crashed play_turn propagates
as none. -/
def your_attack (base scale : ℚ) (your_character opponent_character : Character)
    (rng_engine : RngEngine) (event_log : List String)
    (opponent_team : List Character) (opponent_character_index : Nat) :
    Option (List String × List Character × RngEngine × Option (Character × Nat)) :=
  match play_turn base scale your_character opponent_character true rng_engine with
  | none => none
  | some r =>
    let opponent_team := opponent_team.set opponent_character_index r.opponent_character
    let event_log := event_log ++ [r.description]
    if r.opponent_character.effective_stats.current_hp ≤ 0 then
      let idx := opponent_character_index + 1
      match opponent_team.get? idx with
      | some c => some (event_log, opponent_team, r.rng, some (c, idx))
      | none => some (event_log, opponent_team, r.rng, none)
    else
      some (event_log, opponent_team, r.rng, some (r.opponent_character, opponent_character_index))

/-- opponent_attack from src/backend.py lines 84-116, the mirror image of
your_attack: the opponent attacks, the player character absorbs the hit, and
the player team and index advance when the player character falls. -/
def opponent_attack (base scale : ℚ) (your_character opponent_character : Character)
    (rng_engine : RngEngine) (event_log : List String)
    (your_team : List Character) (your_character_index : Nat) :
    Option (List String × List Character × RngEngine × Option (Character × Nat)) :=
  match play_turn base scale your_character opponent_character false rng_engine with
  | none => none
  | some r =>
    let your_team := your_team.set your_character_index r.your_character
    let event_log := event_log ++ [r.description]
    if r.your_character.effective_stats.current_hp ≤ 0 then
      let idx := your_character_index + 1
      match your_team.get? idx with
      | some c => some (event_log, your_team, r.rng, some (c, idx))
      | none => some (event_log, your_team, r.rng, none)
    else
      some (event_log, your_team, r.rng, some (r.your_character, your_character_index))

/-- The mutable locals of the while loop of play_round
(src/backend.py lines 160-208). -/
structure RoundState where
  your_team : List Character
  opponent_team : List Character
  your_character_index : Nat
  opponent_character_index : Nat
  event_log : List String
  rng : RngEngine

/-- One outcome of executing the loop body once: the fatal path, loop exit
with the computed outcome, or another iteration. -/
inductive StepResult where
  | crashed
  | done (outcome : Bool) (s : RoundState)
  | next (s : RoundState)

/-- One iteration of the while loop of play_round (src/backend.py lines
183-204) plus the outcome computation of line 206. When the loop guard fails
or an attack returns None the loop exits and the outcome is
your_character_index > opponent_character_index evaluated on the state at
exit; note that the break on a None result discards the index advance that
happened inside your_attack or opponent_attack. The Python truthiness check
on the two characters (line 187) can only break on the unreachable
out-of-range lookup and is modelled by the wildcard match arm. -/
def round_step (base scale : ℚ) (is_your_turn_first : Bool) (s : RoundState) : StepResult :=
  if s.your_character_index < s.your_team.length
      ∧ s.opponent_character_index < s.opponent_team.length then
    match s.your_team.get? s.your_character_index,
        s.opponent_team.get? s.opponent_character_index with
    | some your_character, some opponent_character =>
      if is_your_turn_first then
        match your_attack base scale your_character opponent_character s.rng s.event_log
            s.opponent_team s.opponent_character_index with
        | none => .crashed
        | some (log, ot, rng, none) =>
          .done (decide (s.your_character_index > s.opponent_character_index))
            { s with event_log := log, opponent_team := ot, rng := rng }
        | some (log, ot, rng, some (_, oi)) =>
          .next { s with
                  event_log := log
                  opponent_team := ot
                  rng := rng
                  opponent_character_index := oi }
      else
        match opponent_attack base scale your_character opponent_character s.rng s.event_log
            s.your_team s.your_character_index with
        | none => .crashed
        | some (log, yt, rng, none) =>
          .done (decide (s.your_character_index > s.opponent_character_index))
            { s with event_log := log, your_team := yt, rng := rng }
        | some (log, yt, rng, some (_, yi)) =>
          .next { s with
                  event_log := log
                  your_team := yt
                  rng := rng
                  your_character_index := yi }
    | _, _ =>
      .done (decide (s.your_character_index > s.opponent_character_index)) s
  else
    .done (decide (s.your_character_index > s.opponent_character_index)) s

/-- The while loop of play_round run with explicit fuel: none when the fuel is
exhausted before the loop exits (the Python loop would still be running) or on
the fatal path, otherwise the outcome of line 206 paired with the state at
exit. -/
def play_round_aux (base scale : ℚ) (is_your_turn_first : Bool) :
    Nat → RoundState → Option (Bool × RoundState)
  | 0, _ => none
  | fuel + 1, s =>
    match round_step base scale is_your_turn_first s with
    | .crashed => none
    | .done outcome s => some (outcome, s)
    | .next s => play_round_aux base scale is_your_turn_first fuel s

/-- The initial loop state of play_round: both indices 0, empty log. -/
def init_round_state (your_team opponent_team : List Character)
    (rng : RngEngine) : RoundState :=
  { your_team := your_team, opponent_team := opponent_team,
    your_character_index := 0, opponent_character_index := 0,
    event_log := [], rng := rng }

def cannotAddNoneMsg : String := "Cannot add None as an item"

def tooManyItemsMsg : String := "Too many items"

/-- BaseCharacter.add_item from src/utils.py lines 263-299, with the in-place
mutation turned into a returned character and the raised ValueError into the
first component. A None argument fails; then the number of already held items
with the same name is counted, and only when that count exceeds 1 and the item
has a unique passive is the incoming copy deactivated; then the capacity check
fires (leaving the character untouched on failure); otherwise the item is
appended, the added_item_stats accumulate the new item's contribution against
the base stats, and the effective stats are recomputed from the base stats
over all held items in order. -/
def add_item (c : Character) (item? : Option Item) : Except String Unit × Character :=
  match item? with
  | none => (Except.error cannotAddNoneMsg, c)
  | some item =>
    let same_item_count := (c.items.filter (fun x => x.name == item.name)).length
    let item := if item.is_unique_passive && decide (same_item_count > 1) then
        { item with is_passive_active := false }
      else item
    if c.items.length ≥ 3 then (Except.error tooManyItemsMsg, c)
    else
      let items := c.items ++ [item]
      let added_item_stats :=
        c.added_item_stats.add_stat_changes (item.calculate_effective_stats c.base_stats)
      let effective_stats := items.foldl
        (fun acc it => acc.add_stat_changes (it.calculate_effective_stats c.base_stats))
        c.base_stats
      (Except.ok (), { c with
        items := items
        added_item_stats := added_item_stats
        effective_stats := effective_stats })

/-- A decision stream that always draws 0, the smallest value of [0,1):
every draw with a strictly positive probability succeeds and every draw with
probability 0 fails. -/
def cRandZero : Nat → ℚ := fun _ => 0

/-- A fresh engine over the all-zero stream. -/
def cRngA : RngEngine := { rand := cRandZero }

/-- An Enchanted Sword granting 10 physical power, passive initially active. -/
def cSword : Item := { kind := .enchantedSword, base_item_stats := { physical_power := 10 } }

/-- A freshly loaded Ninja with 100 hp and 20 special trigger chance. -/
def cChar0 : Character :=
  mk_character .ninja
    { current_hp := 100
      total_hp := 100
      special_trigger_chance := 20 }

/-- A Warrior whose special always triggers, with effective physical power 10
and magic power 5 (the calibration scenario of the spec), current hp 100 well
below the 200 cap so a heal would be visible. -/
def c1Warrior : Character :=
  mk_character .warrior
    { current_hp := 100
      total_hp := 200
      physical_power := 10
      magic_power := 5
      special_trigger_chance := 100 }

/-- An undefended full-hp bystander. -/
def c1Def : Character :=
  mk_character .ninja
    { current_hp := 50
      total_hp := 50 }

/-- A Ninja whose special always triggers and deals 40 + 15 = 55 damage. -/
def cNinjaStrong : Character :=
  mk_character .ninja
    { current_hp := 100
      total_hp := 100
      physical_power := 30
      special_trigger_chance := 100 }

/-- A 50 hp victim that dies to one 55 damage hit. -/
def cVictim50 : Character :=
  mk_character .warrior
    { current_hp := 50
      total_hp := 50 }

/-- A one-versus-one round: cNinjaStrong against cVictim50 on the all-zero
stream. -/
def cS3 : RoundState := init_round_state [cNinjaStrong] [cVictim50] cRngA

/-- The narration produced by cNinjaStrong's special attack. -/
def cLog3 : List String :=
  ["Ninja performed Special Attack: A precise poisoned dagger shot designed to incapacitate most opponents, dealing 55 Physical Damage."]

/-- cVictim50 after absorbing the 55 damage hit: current hp clamped to 0. -/
def cVictim50dead : Character :=
  { kind := .warrior
    base_stats := { current_hp := 50, total_hp := 50 }
    effective_stats := { current_hp := 0, total_hp := 50 } }

/-- The opponent team after the hit. -/
def cOT3 : List Character := [cVictim50dead]

/-- The engine after the turn's two draws. -/
def cRng3v : RngEngine := { rand := cRandZero, cursor := 2 }

/-- A Ninja whose special always triggers and deals only the 40 base damage. -/
def cNinjaWeak : Character :=
  mk_character .ninja
    { current_hp := 100
      total_hp := 100
      special_trigger_chance := 100 }

/-- A 100 hp victim that needs three 40 damage hits to fall. -/
def cVictim100 : Character :=
  mk_character .warrior
    { current_hp := 100
      total_hp := 100 }

/-- A one-versus-one round that takes three turns: cNinjaWeak against
cVictim100 on the all-zero stream. -/
def cS7 : RoundState := init_round_state [cNinjaWeak] [cVictim100] cRngA

/-- A decision stream whose every draw is 3/4: a draw at 50 percent fails. -/
def cRandThreeQuarters : Nat → ℚ := fun _ => 3 / 4

/-- A fresh engine over the 3/4 stream. -/
def cRng4 : RngEngine := { rand := cRandThreeQuarters }

/-- A Mage attacker with a 50 percent special trigger chance, used to exercise
the basic attack branch. -/
def cMage4 : Character :=
  mk_character .mage
    { current_hp := 80
      total_hp := 80
      magic_power := 12
      special_trigger_chance := 50 }

/-- A plain Pole item. -/
def cPole : Item := { kind := .pole, base_item_stats := { physical_power := 3 } }

/-- A Warrior already holding three poles. -/
def c8Char : Character :=
  { kind := .warrior
    base_stats := { current_hp := 60, total_hp := 60 }
    added_item_stats := { physical_power := 9 }
    effective_stats := { current_hp := 60, total_hp := 60, physical_power := 9 }
    items := [cPole, cPole, cPole] }

/-- A decision stream drawing 0 first and 1/2 afterwards: the first draw
succeeds for any positive probability and the second fails for probability
at most 50 percent. -/
def cRandZeroThenHalf : Nat → ℚ := fun n => if n == 0 then 0 else 1 / 2

/-- A fresh engine over that stream. -/
def cRng9 : RngEngine := { rand := cRandZeroThenHalf }

/-- The Ninja of the spec calibration scenario: effective physical power 20
and magic power 10, special trigger chance 50. -/
def cNinja9 : Character :=
  mk_character .ninja
    { current_hp := 300
      total_hp := 300
      physical_power := 20
      magic_power := 10
      special_trigger_chance := 50 }

/-- The undefended target of the scenario: armor 0, magic resistance 0,
80 of 100 hp. -/
def cTarget9 : Character :=
  mk_character .warrior
    { current_hp := 80
      total_hp := 100 }

theorem select_attack_eq (base scale : ℚ) (b : Bool) (a : Character) :
    select_attack base scale b a
      = some (if b then a.special_attack else a.basic_attack base scale) := by
  cases b <;> rfl

/-- C5: of the four bounds asserted by the spec for every stat combination,
the code guarantees exactly these: the resulting current_hp is at least 0 and
at most max(resulting total_hp, 0), the resulting armor is at least 0, and the
resulting special_trigger_chance is at most 100. -/
theorem c5_combine_partial_bounds (a b : Stats) :
    0 ≤ (a.add_stat_changes b).current_hp
    ∧ (a.add_stat_changes b).current_hp ≤ max (a.add_stat_changes b).total_hp 0
    ∧ 0 ≤ (a.add_stat_changes b).armor
    ∧ (a.add_stat_changes b).special_trigger_chance ≤ 100 := by
  refine ⟨le_max_right _ _, ?_, le_max_right _ _, min_le_right _ _⟩
  exact max_le_max (min_le_right _ _) le_rfl

/-- C5 counterexample: combining the all-zero stat vector with a delta of
total_hp -1 and special_trigger_chance -5 yields a negative total_hp, a
negative special_trigger_chance, and a current_hp strictly above the
resulting total_hp, falsifying the claimed invariants. -/
theorem c5_combine_counterexample :
    (Stats.add_stat_changes {} { total_hp := -1, special_trigger_chance := -5 }).total_hp < 0
    ∧ (Stats.add_stat_changes {} { total_hp := -1, special_trigger_chance := -5 }).special_trigger_chance < 0
    ∧ (Stats.add_stat_changes {} { total_hp := -1, special_trigger_chance := -5 }).total_hp
      < (Stats.add_stat_changes {} { total_hp := -1, special_trigger_chance := -5 }).current_hp := by
  refine ⟨?_, ?_, ?_⟩ <;> with_unfolding_all decide

/-- C10: a damage packet with no strictly positive component has miss chance
0, and a probability-0 draw over any stream value of [0,1) returns false, so
such an attack is never negated even though the draw is still taken. -/
theorem c10_zero_damage_never_missed (d : Damage) (s : Stats)
    (h1 : d.physical ≤ 0) (h2 : d.magic ≤ 0) :
    calculate_miss_chance d s = 0
    ∧ ∀ e : RngEngine, 0 ≤ e.rand e.cursor → (e.rng (calculate_miss_chance d s)).1 = false := by
  have hm : calculate_miss_chance d s = 0 := by
    unfold calculate_miss_chance
    rw [if_neg (not_lt.mpr h1), if_neg (not_lt.mpr h2)]
  refine ⟨hm, fun e he => ?_⟩
  simp only [RngEngine.rng, hm, zero_div, decide_eq_false_iff_not, not_lt]
  exact he

/-- C10 witness: the all-zero damage packet against empty stats has miss
chance 0 and the draw over the all-zero stream returns false. -/
theorem c10_zero_damage_never_missed_witness :
    calculate_miss_chance {} {} = 0
    ∧ (cRngA.rng (calculate_miss_chance {} {})).1 = false :=
  ⟨(c10_zero_damage_never_missed {} {} le_rfl le_rfl).1,
   (c10_zero_damage_never_missed {} {} le_rfl le_rfl).2 cRngA le_rfl⟩

/-- C1: evaluating play_turn for the Warrior calibration scenario (effective
physical power 10 and magic power 5, special draw certain to succeed): the
attack carries the 72.5 = 145/2 point heal in its stat_updates_to_self, yet
after the turn the attacker is unchanged (the heal is never applied), the
well-formed defender is unchanged, and the rng cursor advanced by two, i.e. a
miss draw was consumed despite the all-zero damage packet. -/
theorem c1_warrior_heal_dropped :
    (c1Warrior.special_attack).stat_updates_to_self.current_hp = 145 / 2
    ∧ ((play_turn 0 0 c1Warrior c1Def true cRngA).map
        (fun r => (r.your_character, r.opponent_character, r.rng.cursor)))
      = some (c1Warrior, c1Def, 2) := by
  constructor <;> with_unfolding_all rfl

/-- C2: equipping a second Enchanted Sword on a character already holding one
leaves the second copy's passive active (the code deactivates only when more
than one copy is already held), so the effective special trigger chance
becomes 40 (two passive contributions of 10 over the base 20), not the 30 the
spec predicts for base stats plus the first copy's full contribution plus the
second copy's base item stats. -/
theorem c2_duplicate_sword_passive_kept :
    (add_item cChar0 (some cSword)).1 = Except.ok ()
    ∧ (add_item (add_item cChar0 (some cSword)).2 (some cSword)).1 = Except.ok ()
    ∧ ((add_item (add_item cChar0 (some cSword)).2 (some cSword)).2.items.map
        (fun i => i.is_passive_active)) = [true, true]
    ∧ (add_item (add_item cChar0 (some cSword)).2 (some cSword)).2.effective_stats.special_trigger_chance = 40
    ∧ ((cChar0.base_stats.add_stat_changes
          (cSword.calculate_effective_stats cChar0.base_stats)).add_stat_changes
        cSword.base_item_stats).special_trigger_chance = 30 := by
  refine ⟨?_, ?_, ?_, ?_, ?_⟩ <;> with_unfolding_all rfl

/-- C8: adding any item to a character already holding three items fails with
the capacity error and returns the character unchanged. -/
theorem c8_add_item_capacity (c : Character) (item : Item)
    (h : c.items.length = 3) :
    add_item c (some item) = (Except.error tooManyItemsMsg, c) := by
  unfold add_item
  have h3 : c.items.length ≥ 3 := by omega
  simp only [if_pos h3]

/-- C8 witness: adding a sword to a character holding three poles fails with
the capacity error and leaves the character untouched. -/
theorem c8_add_item_capacity_witness :
    add_item c8Char (some cSword) = (Except.error tooManyItemsMsg, c8Char) :=
  c8_add_item_capacity c8Char cSword rfl

/-- C6 (amended): every turn consumes exactly two draws, the special-trigger
draw followed unconditionally by a miss draw, advancing the rng cursor by
two; the returned narration belongs to the attack chosen by the first draw.
Zero-damage attacks consume the miss draw like any other. -/
theorem c6_turn_consumes_two_draws (base scale : ℚ) (yc oc : Character)
    (t : Bool) (e : RngEngine) :
    ((play_turn base scale yc oc t e).map (fun r => r.rng.cursor)
      = some (e.cursor + 2))
    ∧ ((play_turn base scale yc oc t e).map (fun r => r.description)
      = some (if (e.rng (if t then yc else oc).effective_stats.special_trigger_chance).1
          then (if t then yc else oc).special_attack.description
          else ((if t then yc else oc).basic_attack base scale).description)) := by
  simp only [play_turn, select_attack_eq]
  cases t <;>
    cases hb : (e.rng (if true then yc else oc).effective_stats.special_trigger_chance).1 <;>
    simp_all [RngEngine.rng] <;> split <;> simp

/-- C6 counterexample: the Warrior special turn of the calibration scenario
has an attack whose damage packet is entirely zero, yet the turn advances the
rng cursor by two: the miss draw is consumed. -/
theorem c6_zero_damage_turn_consumes_miss_draw :
    (c1Warrior.special_attack).damage = ({} : Damage)
    ∧ ((play_turn 0 0 c1Warrior c1Def true cRngA).map (fun r => r.description))
      = some (c1Warrior.special_attack).description
    ∧ ((play_turn 0 0 c1Warrior c1Def true cRngA).map (fun r => r.rng.cursor))
      = some 2 := by
  refine ⟨?_, ?_, ?_⟩ <;> with_unfolding_all rfl

/-- C4: whenever the special-trigger draw fails, the turn resolves the basic
attack: play_turn succeeds (never the fatal None path) and returns exactly the
basic attack narration, and the basic attack of every variant carries a zero
self delta (never a self-heal) and a non-empty description. -/
theorem c4_basic_attack_branch (base scale : ℚ) (yc oc : Character)
    (t : Bool) (e : RngEngine)
    (h : ¬ (e.rand e.cursor
        < (if t then yc else oc).effective_stats.special_trigger_chance / 100)) :
    ((play_turn base scale yc oc t e).map (fun r => r.description)
      = some (((if t then yc else oc).basic_attack base scale).description))
    ∧ ((if t then yc else oc).basic_attack base scale).stat_updates_to_self = ({} : Stats)
    ∧ ((if t then yc else oc).basic_attack base scale).description ≠ ""
    ∧ (play_turn base scale yc oc t e).isSome = true := by
  have hne : ((if t then yc else oc).basic_attack base scale).description ≠ "" := by
    simp only [Character.basic_attack, Character.name]
    cases (if t then yc else oc).kind <;> with_unfolding_all decide
  have hdraw : (e.rng (if t then yc else oc).effective_stats.special_trigger_chance).1 = false := by
    simp [RngEngine.rng, h]
  refine ⟨?_, rfl, hne, ?_⟩ <;>
    cases t <;>
    simp_all [play_turn, select_attack_eq]

/-- C4 witness: a Mage with a 50 percent trigger chance on the 3/4 stream
fails the special draw and lands in the basic attack branch. -/
theorem c4_basic_attack_branch_witness :
    ((play_turn 1 1 cMage4 c1Def true cRng4).map (fun r => r.description)
      = some (((if true then cMage4 else c1Def).basic_attack 1 1).description))
    ∧ ((if true then cMage4 else c1Def).basic_attack 1 1).stat_updates_to_self = ({} : Stats)
    ∧ ((if true then cMage4 else c1Def).basic_attack 1 1).description ≠ ""
    ∧ (play_turn 1 1 cMage4 c1Def true cRng4).isSome = true :=
  c4_basic_attack_branch 1 1 cMage4 c1Def true cRng4 (by with_unfolding_all decide)

/-- C9: a Ninja with effective physical power 20 and magic power 10 whose
special draw succeeds, against a well-formed undefended target whose miss
draw fails: the special deals 55 physical damage, the mitigated delta is
exactly -55 current_hp, and the defender's current hp drops by 55, clamped
at 0; the attacker is unchanged. -/
theorem c9_ninja_special_scenario (a d : Character) (e : RngEngine) (base scale : ℚ)
    (hk : a.kind = CharKind.ninja)
    (hpp : a.effective_stats.physical_power = 20)
    (hmp : a.effective_stats.magic_power = 10)
    (har : d.effective_stats.armor = 0)
    (hhp : d.effective_stats.current_hp ≤ d.effective_stats.total_hp)
    (hd1 : e.rand e.cursor < a.effective_stats.special_trigger_chance / 100)
    (hd2 : ¬ (e.rand (e.cursor + 1) < 0)) :
    (a.special_attack).damage.physical = 55
    ∧ calculate_damage_taken (a.special_attack).damage d.effective_stats
        = { current_hp := -55 }
    ∧ ((play_turn base scale a d true e).map
        (fun r => (r.your_character, r.opponent_character.effective_stats.current_hp)))
      = some (a, max (d.effective_stats.current_hp - 55) 0) := by
  have hdmg : (a.special_attack).damage = { physical := 55 } := by
    simp only [Character.special_attack, hk, hpp, hmp]
    norm_num
  have h55 : calculate_damage_taken (a.special_attack).damage d.effective_stats
      = { current_hp := -55 } := by
    rw [hdmg]
    unfold calculate_damage_taken
    rw [har]
    norm_num
  have hdraw1 : (e.rng a.effective_stats.special_trigger_chance).1 = true := by
    simp [RngEngine.rng, hd1]
  have hmiss : calculate_miss_chance (a.special_attack).damage d.effective_stats = 0 := by
    rw [hdmg]
    unfold calculate_miss_chance
    rw [har]
    norm_num
  have hdraw2 : (((e.rng a.effective_stats.special_trigger_chance).2).rng 0).1 = false := by
    simp [RngEngine.rng, hd2]
  have hcur : (d.effective_stats.add_stat_changes { current_hp := -55 }).current_hp
      = max (d.effective_stats.current_hp - 55) 0 := by
    simp only [Stats.add_stat_changes]
    rw [min_eq_left (add_le_add hhp (by norm_num))]
    ring_nf
  refine ⟨by rw [hdmg], h55, ?_⟩
  simp only [play_turn, select_attack_eq, if_true, hdraw1, hmiss, h55, hdraw2,
    Bool.not_false, Option.map_some]
  simp [hcur]

/-- C9 witness: cNinja9 against cTarget9 on the 0-then-1/2 stream. -/
theorem c9_ninja_special_scenario_witness :
    (cNinja9.special_attack).damage.physical = 55
    ∧ calculate_damage_taken (cNinja9.special_attack).damage cTarget9.effective_stats
        = { current_hp := -55 }
    ∧ ((play_turn 0 0 cNinja9 cTarget9 true cRng9).map
        (fun r => (r.your_character, r.opponent_character.effective_stats.current_hp)))
      = some (cNinja9, max (cTarget9.effective_stats.current_hp - 55) 0) :=
  c9_ninja_special_scenario cNinja9 cTarget9 cRng9 0 0 rfl
    (by with_unfolding_all rfl) (by with_unfolding_all rfl) (by with_unfolding_all rfl)
    (by with_unfolding_all decide) (by with_unfolding_all decide) (by with_unfolding_all decide)

theorem round_step_done_outcome (base scale : ℚ) (first : Bool) (s : RoundState)
    (out : Bool) (s' : RoundState)
    (h : round_step base scale first s = .done out s') :
    out = decide (s'.your_character_index > s'.opponent_character_index) := by
  unfold round_step at h
  split at h
  · split at h
    · split at h
      · split at h
        · exact absurd h (by simp)
        · injection h with h1 h2
          subst h2
          exact h1.symm
        · exact absurd h (by simp)
      · split at h
        · exact absurd h (by simp)
        · injection h with h1 h2
          subst h2
          exact h1.symm
        · exact absurd h (by simp)
    · injection h with h1 h2
      subst h2
      exact h1.symm
  · injection h with h1 h2
    subst h2
    exact h1.symm

theorem play_round_aux_outcome (base scale : ℚ) (first : Bool) :
    ∀ (fuel : Nat) (s : RoundState) (p : Bool × RoundState),
    play_round_aux base scale first fuel s = some p →
    p.1 = decide (p.2.your_character_index > p.2.opponent_character_index) := by
  intro fuel
  induction fuel with
  | zero =>
    intro s p h
    exact absurd h (by simp [play_round_aux])
  | succ n ih =>
    intro s p h
    rw [play_round_aux] at h
    split at h
    · exact absurd h (by simp)
    · rename_i out s' hstep
      injection h with h1
      subst h1
      exact round_step_done_outcome base scale first s out s' hstep
    · rename_i s' hstep
      exact ih s' p h

theorem your_attack_parts (base scale : ℚ) (yc oc : Character) (rng0 : RngEngine)
    (log0 : List String) (ot0 : List Character) (oi0 : Nat)
    (log : List String) (ot : List Character) (rng : RngEngine)
    (nxt : Option (Character × Nat))
    (h : your_attack base scale yc oc rng0 log0 ot0 oi0 = some (log, ot, rng, nxt)) :
    ot.length = ot0.length ∧ ∀ c i, nxt = some (c, i) → i = oi0 ∨ i < ot.length := by
  unfold your_attack at h
  split at h
  · exact absurd h (by simp)
  · rename_i r hr
    dsimp only [] at h
    split at h
    · split at h
      · rename_i c2 hget
        simp only [Option.some.injEq, Prod.mk.injEq] at h
        obtain ⟨h1, h2, h3, h4⟩ := h
        subst h2
        refine ⟨by simp, fun c i hci => ?_⟩
        rw [← h4] at hci
        injection hci with hci2
        injection hci2 with hc hi
        subst hi
        right
        rw [List.get?_eq_some] at hget
        exact hget.1
      · simp only [Option.some.injEq, Prod.mk.injEq] at h
        obtain ⟨h1, h2, h3, h4⟩ := h
        subst h2
        refine ⟨by simp, fun c i hci => ?_⟩
        rw [← h4] at hci
        exact absurd hci (by simp)
    · simp only [Option.some.injEq, Prod.mk.injEq] at h
      obtain ⟨h1, h2, h3, h4⟩ := h
      subst h2
      refine ⟨by simp, fun c i hci => ?_⟩
      rw [← h4] at hci
      injection hci with hci2
      injection hci2 with hc hi
      subst hi
      left
      rfl

theorem opponent_attack_parts (base scale : ℚ) (yc oc : Character) (rng0 : RngEngine)
    (log0 : List String) (yt0 : List Character) (yi0 : Nat)
    (log : List String) (yt : List Character) (rng : RngEngine)
    (nxt : Option (Character × Nat))
    (h : opponent_attack base scale yc oc rng0 log0 yt0 yi0 = some (log, yt, rng, nxt)) :
    yt.length = yt0.length ∧ ∀ c i, nxt = some (c, i) → i = yi0 ∨ i < yt.length := by
  unfold opponent_attack at h
  split at h
  · exact absurd h (by simp)
  · rename_i r hr
    dsimp only [] at h
    split at h
    · split at h
      · rename_i c2 hget
        simp only [Option.some.injEq, Prod.mk.injEq] at h
        obtain ⟨h1, h2, h3, h4⟩ := h
        subst h2
        refine ⟨by simp, fun c i hci => ?_⟩
        rw [← h4] at hci
        injection hci with hci2
        injection hci2 with hc hi
        subst hi
        right
        rw [List.get?_eq_some] at hget
        exact hget.1
      · simp only [Option.some.injEq, Prod.mk.injEq] at h
        obtain ⟨h1, h2, h3, h4⟩ := h
        subst h2
        refine ⟨by simp, fun c i hci => ?_⟩
        rw [← h4] at hci
        exact absurd hci (by simp)
    · simp only [Option.some.injEq, Prod.mk.injEq] at h
      obtain ⟨h1, h2, h3, h4⟩ := h
      subst h2
      refine ⟨by simp, fun c i hci => ?_⟩
      rw [← h4] at hci
      injection hci with hci2
      injection hci2 with hc hi
      subst hi
      left
      rfl

theorem round_step_done_state (base scale : ℚ) (first : Bool) (s : RoundState)
    (out : Bool) (s' : RoundState)
    (h : round_step base scale first s = .done out s') :
    s'.your_character_index = s.your_character_index
    ∧ s'.opponent_character_index = s.opponent_character_index
    ∧ s'.your_team.length = s.your_team.length
    ∧ s'.opponent_team.length = s.opponent_team.length := by
  unfold round_step at h
  split at h
  · split at h
    · split at h
      · split at h
        · exact absurd h (by simp)
        · rename_i log ot rng hatk
          injection h with h1 h2
          subst h2
          have := (your_attack_parts base scale _ _ _ _ _ _ _ _ _ _ hatk).1
          exact ⟨rfl, rfl, rfl, this⟩
        · exact absurd h (by simp)
      · split at h
        · exact absurd h (by simp)
        · rename_i log yt rng hatk
          injection h with h1 h2
          subst h2
          have := (opponent_attack_parts base scale _ _ _ _ _ _ _ _ _ _ hatk).1
          exact ⟨rfl, rfl, this, rfl⟩
        · exact absurd h (by simp)
    · injection h with h1 h2
      subst h2
      exact ⟨rfl, rfl, rfl, rfl⟩
  · injection h with h1 h2
    subst h2
    exact ⟨rfl, rfl, rfl, rfl⟩

theorem round_step_next_state (base scale : ℚ) (first : Bool) (s : RoundState)
    (s' : RoundState)
    (h : round_step base scale first s = .next s') :
    s'.your_character_index ≤ s'.your_team.length
    ∧ s'.opponent_character_index ≤ s'.opponent_team.length
    ∧ s'.your_team.length = s.your_team.length
    ∧ s'.opponent_team.length = s.opponent_team.length := by
  unfold round_step at h
  split at h
  · rename_i hguard
    split at h
    · split at h
      · split at h
        · exact absurd h (by simp)
        · exact absurd h (by simp)
        · rename_i log ot rng c2 oi hatk
          injection h with h1
          subst h1
          have hparts := your_attack_parts base scale _ _ _ _ _ _ _ _ _ _ hatk
          have hoi := hparts.2 c2 oi rfl
          refine ⟨?_, ?_, rfl, hparts.1⟩
          · exact le_of_lt hguard.1
          · rcases hoi with hoi | hoi
            · rw [hoi, hparts.1]
              exact le_of_lt hguard.2
            · exact le_of_lt hoi
      · split at h
        · exact absurd h (by simp)
        · exact absurd h (by simp)
        · rename_i log yt rng c2 yi hatk
          injection h with h1
          subst h1
          have hparts := opponent_attack_parts base scale _ _ _ _ _ _ _ _ _ _ hatk
          have hyi := hparts.2 c2 yi rfl
          refine ⟨?_, ?_, hparts.1, rfl⟩
          · rcases hyi with hyi | hyi
            · rw [hyi, hparts.1]
              exact le_of_lt hguard.1
            · exact le_of_lt hyi
          · exact le_of_lt hguard.2
    · exact absurd h (by simp)
  · exact absurd h (by simp)

theorem play_round_aux_index_bound (base scale : ℚ) (first : Bool) :
    ∀ (fuel : Nat) (s : RoundState) (p : Bool × RoundState),
    play_round_aux base scale first fuel s = some p →
    s.your_character_index ≤ s.your_team.length →
    s.opponent_character_index ≤ s.opponent_team.length →
    p.2.your_character_index ≤ p.2.your_team.length
    ∧ p.2.opponent_character_index ≤ p.2.opponent_team.length
    ∧ p.2.your_team.length = s.your_team.length
    ∧ p.2.opponent_team.length = s.opponent_team.length := by
  intro fuel
  induction fuel with
  | zero =>
    intro s p h
    exact absurd h (by simp [play_round_aux])
  | succ n ih =>
    intro s p h hy ho
    rw [play_round_aux] at h
    split at h
    · exact absurd h (by simp)
    · rename_i out s' hstep
      injection h with h1
      subst h1
      obtain ⟨e1, e2, e3, e4⟩ := round_step_done_state base scale first s out s' hstep
      refine ⟨?_, ?_, e3, e4⟩
      · rw [e1, e3]
        exact hy
      · rw [e2, e4]
        exact ho
    · rename_i s' hstep
      obtain ⟨e1, e2, e3, e4⟩ := round_step_next_state base scale first s s' hstep
      obtain ⟨f1, f2, f3, f4⟩ := ih s' p h e1 e2
      exact ⟨f1, f2, by rw [f3, e3], by rw [f4, e4]⟩

/-- C3 (amended): whenever play_round's loop exits within the given fuel, the
reported outcome equals the strict comparison your index greater than opponent
index on the exit state (so on a tie the queried side did not win); and when
your attack defeats the last opponent character (your_attack returns no next
character), the round terminates right there with that same comparison as
outcome, the defender-side index not having been advanced for the final kill --
the attacking side is not thereby declared the winner. -/
theorem c3_round_termination_and_winner (base scale : ℚ) (first : Bool)
    (fuel : Nat) (s : RoundState) :
    ((play_round_aux base scale first fuel s).map Prod.fst
      = (play_round_aux base scale first fuel s).map
          (fun p => decide (p.2.your_character_index > p.2.opponent_character_index)))
    ∧ (∀ (h1 : s.your_character_index < s.your_team.length)
        (h2 : s.opponent_character_index < s.opponent_team.length)
        (log : List String) (ot : List Character) (rng : RngEngine),
        your_attack base scale (s.your_team.get ⟨s.your_character_index, h1⟩)
            (s.opponent_team.get ⟨s.opponent_character_index, h2⟩)
            s.rng s.event_log s.opponent_team s.opponent_character_index
          = some (log, ot, rng, none) →
        (play_round_aux base scale true (fuel + 1) s).map Prod.fst
          = some (decide (s.your_character_index > s.opponent_character_index))) := by
  constructor
  · cases hr : play_round_aux base scale first fuel s with
    | none => simp
    | some p =>
      have := play_round_aux_outcome base scale first fuel s p hr
      simp [this]
  · intro h1 h2 log ot rng hatk
    have hstep : round_step base scale true s
        = .done (decide (s.your_character_index > s.opponent_character_index))
          { s with event_log := log, opponent_team := ot, rng := rng } := by
      unfold round_step
      rw [if_pos (And.intro h1 h2)]
      rw [List.get?_eq_get h1, List.get?_eq_get h2]
      simp only [eq_self_iff_true, if_true]
      rw [hatk]
    rw [play_round_aux, hstep]
    rfl

/-- C7 (amended): whenever a round started from fresh indices exits, the final
indices are bounded by the two roster lengths, so at most
len(your_team) + len(opponent_team) turns defeat a character. The number of
turns itself is not so bounded (see the counterexample). -/
theorem c7_round_defeats_bounded (base scale : ℚ) (first : Bool) (fuel : Nat)
    (your_team opponent_team : List Character) (rng : RngEngine) :
    ((play_round_aux base scale first fuel
        (init_round_state your_team opponent_team rng)).map
      (fun p => decide (p.2.your_character_index ≤ your_team.length)
        && decide (p.2.opponent_character_index ≤ opponent_team.length))).getD true
      = true := by
  cases hr : play_round_aux base scale first fuel
      (init_round_state your_team opponent_team rng) with
  | none => simp
  | some p =>
    obtain ⟨f1, f2, f3, f4⟩ := play_round_aux_index_bound base scale first fuel _ p hr
      (by simp [init_round_state]) (by simp [init_round_state])
    simp only [Option.map_some', Option.getD_some, Bool.and_eq_true, decide_eq_true_eq]
    exact ⟨f3 ▸ f1, f4 ▸ f2⟩

/-- C3 counterexample: in the one-versus-one round cS3 with you attacking
first, your first attack defeats the opponent's last character (your_attack
returns no next character), yet play_round reports False: the attacking side
is not declared the round winner, because the final kill never advances the
opponent index held by the loop (0 > 0 is false). -/
theorem c3_last_defeat_not_attacker_win :
    ((your_attack 0 0 cNinjaStrong cVictim50 cRngA [] [cVictim50] 0).map
      (fun q => q.2.2.2)) = some none
    ∧ (play_round_aux 0 0 true 5 cS3).map Prod.fst = some false := by
  constructor <;> with_unfolding_all rfl

/-- C3 witness: the general winner rule and the termination rule instantiated
on the concrete round cS3. -/
theorem c3_round_termination_and_winner_witness :
    ((play_round_aux 0 0 true 5 cS3).map Prod.fst
      = (play_round_aux 0 0 true 5 cS3).map
          (fun p => decide (p.2.your_character_index > p.2.opponent_character_index)))
    ∧ (play_round_aux 0 0 true (0 + 1) cS3).map Prod.fst
      = some (decide (cS3.your_character_index > cS3.opponent_character_index)) :=
  ⟨(c3_round_termination_and_winner 0 0 true 5 cS3).1,
   (c3_round_termination_and_winner 0 0 true 0 cS3).2
     (by with_unfolding_all decide) (by with_unfolding_all decide)
     cLog3 cOT3 cRng3v (by with_unfolding_all rfl)⟩

/-- C7 counterexample: the one-versus-one round cS7 (rosters of total length
2) is still running after 2 turns of fuel, and terminates only at the third
turn, with an event log of three turn narrations: a round is not bounded by
len(your_team) + len(opponent_team) turns. -/
theorem c7_round_exceeds_turn_bound :
    play_round_aux 0 0 true 2 cS7 = none
    ∧ (play_round_aux 0 0 true 3 cS7).map (fun p => p.2.event_log.length) = some 3 := by
  constructor <;> with_unfolding_all rfl
